import Mathlib

/-!
Verification of the training/evaluation orchestrator of `src/train.py`
(mer-deepcaps).  The `train` function is shallowly embedded: tensors become
lists indexed by the batch dimension, the external collaborators (the DeepCaps
model forward pass, its loss function, the optimizer step, `accuracy_calc`,
`onehot_encode`, the torchmetrics F1 score) become opaque function parameters
bundled in a `Net` structure, and the epoch/batch loops become folds.
Rational numbers stand in for the floating point scalars.
-/

namespace MerDeepCaps

/-- An image is a flat list of pixel values (shape is irrelevant to the
orchestrator, which only concatenates along the batch dimension). -/
abbrev Img := List ℚ

/-- One batch yielded by a loader: `(train_data, optic_data, labels)` in
`src/train.py` lines 68 and 104.  Each field is a batch-indexed list. -/
structure Batch where
  data : List Img
  optic : List Img
  labels : List Nat
  deriving Repr, DecidableEq

/-- `data_con = torch.concat((data, optic_data))` (train.py lines 70, 106):
concatenation along the batch dimension, primary block first. -/
def mergeData (b : Batch) : List Img := b.data ++ b.optic

/-- `labels_con = torch.concat((labels, labels))` (train.py lines 71, 107). -/
def mergeLabels (b : Batch) : List Nat := b.labels ++ b.labels

/-- The eight-tuple returned by the model's forward pass
`deepcaps(data, optic_data, onehot_label)` (train.py lines 76, 111);
the two unused pose tensors are omitted. -/
structure ForwardOut where
  outputs : List (List ℚ)
  reconstructed : List Img
  indices : List Nat
  outputs1 : List (List ℚ)
  reconstructed1 : List Img
  indices1 : List Nat
  deriving Repr, DecidableEq

/-- The external collaborators of the orchestrator, over a parameter type `P`
(the model's trainable parameter state):
* `forward` — the model forward pass, a function of the current parameters,
  the two image batches and the one-hot labels;
* `lossFn` — `deepcaps.loss(x, reconstructed, data, labels, lambda_, m_plus,
  m_minus)`, an opaque scalar;
* `optStep` — the combined effect of `loss.backward(); optimizer.step()` on
  the parameters, as a function of the current parameters and the batch;
* `accCalc` — `accuracy_calc(predictions, labels)` from `helpers`;
* `onehot` — `onehot_encode(labels, num_classes)` from `helpers`;
* `f1` — the torchmetrics `F1Score` as a function of its constructed class
  count and the two index tensors. -/
structure Net (P : Type) where
  forward : P → List Img → List Img → List (List ℚ) → ForwardOut
  lossFn : List (List ℚ) → List Img → List Img → List (List ℚ) → ℚ → ℚ → ℚ → ℚ
  optStep : P → Batch → P
  accCalc : List Nat → List Nat → ℚ
  onehot : List Nat → Nat → List (List ℚ)
  f1 : Nat → List Nat → List Nat → ℚ

/-- The loss hyperparameters threaded through to `deepcaps.loss`. -/
structure Hyper where
  lambda_ : ℚ
  mPlus : ℚ
  mMinus : ℚ
  deriving Repr, DecidableEq

/-- State accumulated across the batches of one phase of one epoch:
the model parameters plus `batch_loss` and `batch_accuracy`
(train.py lines 62-63, 99-100). -/
structure BatchAcc (P : Type) where
  params : P
  batchLoss : ℚ
  batchAccuracy : ℚ

/-- The per-batch tensors that survive the loop in the Python scope and feed
the F1 print and the reconstruction plot: `data_con`, `recon`, `ind`,
`labels_con`. -/
structure Artifacts where
  dataCon : List Img
  recon : List Img
  ind : List Nat
  labelsCon : List Nat
  deriving Repr, DecidableEq

/-- Body of one training batch (train.py lines 68-87): build the merged batch
and one-hot labels, clear gradients, forward, concatenate branch outputs,
compute the loss, backpropagate and step the optimizer, accumulate loss and
accuracy. -/
def trainBatchStep {P : Type} (net : Net P) (h : Hyper) (numClasses : Nat)
    (s : BatchAcc P) (b : Batch) : BatchAcc P × Artifacts :=
  let dataCon := mergeData b
  let labelsCon := mergeLabels b
  let onehotLabel := net.onehot b.labels numClasses
  let onehotLabelCon := net.onehot labelsCon numClasses
  let f := net.forward s.params b.data b.optic onehotLabel
  let out := f.outputs ++ f.outputs1
  let recon := f.reconstructed ++ f.reconstructed1
  let ind := f.indices ++ f.indices1
  let loss := net.lossFn out recon dataCon onehotLabelCon h.lambda_ h.mPlus h.mMinus
  let params := net.optStep s.params b
  (⟨params, s.batchLoss + loss, s.batchAccuracy + net.accCalc ind labelsCon⟩,
   ⟨dataCon, recon, ind, labelsCon⟩)

/-- Body of one testing batch (train.py lines 104-119): the same merged-batch
construction, forward pass, loss and accumulation, but with no
`optimizer.zero_grad()`, no `loss.backward()` and no `optimizer.step()`. -/
def testBatchStep {P : Type} (net : Net P) (h : Hyper) (numClasses : Nat)
    (s : BatchAcc P) (b : Batch) : BatchAcc P × Artifacts :=
  let dataCon := mergeData b
  let labelsCon := mergeLabels b
  let onehotLabel := net.onehot b.labels numClasses
  let onehotLabelCon := net.onehot labelsCon numClasses
  let f := net.forward s.params b.data b.optic onehotLabel
  let out := f.outputs ++ f.outputs1
  let recon := f.reconstructed ++ f.reconstructed1
  let ind := f.indices ++ f.indices1
  let loss := net.lossFn out recon dataCon onehotLabelCon h.lambda_ h.mPlus h.mMinus
  (⟨s.params, s.batchLoss + loss, s.batchAccuracy + net.accCalc ind labelsCon⟩,
   ⟨dataCon, recon, ind, labelsCon⟩)

/-- The final value of `batch_idx` after a phase loop over `n` batches:
`batch_idx` is initialized to `0` (train.py lines 64, 101) and `enumerate`
leaves it at `n - 1` when the loader is non-empty. -/
def finalBatchIdx (n : Nat) : Nat := if n = 0 then 0 else n - 1

/-- The denominator `batch_idx + 1` used at epoch finalization
(train.py lines 90-91, 122-123), as a rational. -/
def epochDenominator (n : Nat) : ℚ := (finalBatchIdx n + 1 : Nat)

/-- Run one phase loop: fold the given batch body over the loader's batches,
starting from zeroed accumulators, also carrying the artifacts of the most
recent batch (`none` when the loader was empty). -/
def runPhase {P : Type} (step : BatchAcc P → Batch → BatchAcc P × Artifacts)
    (p : P) (batches : List Batch) : BatchAcc P × Option Artifacts :=
  batches.foldl
    (fun sa b =>
      let r := step sa.1 b
      (r.1, some r.2))
    (⟨p, 0, 0⟩, none)

/-- What one phase of one epoch produces: the (possibly updated) parameters,
`epoch_accuracy`, `avg_batch_loss`, and the last batch's artifacts. -/
structure PhaseResult (P : Type) where
  params : P
  epochAccuracy : ℚ
  avgBatchLoss : ℚ
  last : Option Artifacts

/-- The training pass of one epoch and its finalization
(train.py lines 62-95): `epoch_accuracy = batch_accuracy/(batch_idx+1)` and
`avg_batch_loss = batch_loss/(batch_idx+1)`. -/
def trainEpoch {P : Type} (net : Net P) (h : Hyper) (numClasses : Nat)
    (p : P) (batches : List Batch) : PhaseResult P :=
  let r := runPhase (trainBatchStep net h numClasses) p batches
  { params := r.1.params
    epochAccuracy := r.1.batchAccuracy / epochDenominator batches.length
    avgBatchLoss := r.1.batchLoss / epochDenominator batches.length
    last := r.2 }

/-- The testing pass of one epoch and its finalization
(train.py lines 99-128): `epoch_accuracy = batch_accuracy/(batch_idx+1)` and
`avg_batch_loss = (batch_loss/(batch_idx+1))/2` — the testing average loss
carries an extra division by 2. -/
def testEpoch {P : Type} (net : Net P) (h : Hyper) (numClasses : Nat)
    (p : P) (batches : List Batch) : PhaseResult P :=
  let r := runPhase (testBatchStep net h numClasses) p batches
  { params := r.1.params
    epochAccuracy := r.1.batchAccuracy / epochDenominator batches.length
    avgBatchLoss := r.1.batchLoss / epochDenominator batches.length / 2
    last := r.2 }

/-- The class count baked into the F1 metric: `F1Score(num_classes=7)`
(train.py line 125) uses the literal `7` regardless of the `num_classes`
argument of `train`. -/
def f1NumClasses (numClasses : Nat) : Nat := 7

/-- The input fed to the F1 metric at epoch finalization: the `ind` and
`labels_con` tensors left over from the last testing batch
(train.py line 126). -/
def reportedF1Input {P : Type} (r : PhaseResult P) :
    Option (List Nat × List Nat) :=
  r.last.map (fun a => (a.ind, a.labelsCon))

/-- The guard of the plotting block (train.py line 132):
`not graphs_folder is None and epoch_idx%5==0`.  The folder value itself is
opaque to the orchestrator, hence the type parameter `G`. -/
def plotTriggered {G : Type} (graphsFolder : Option G) (epochIdx : Nat) : Bool :=
  graphsFolder.isSome && epochIdx % 5 == 0

/-- The outcome of the checkpoint-restore phase (train.py lines 38-44):
either training proceeds with some parameters, or the process exits via
`sys.exit()` with the given status code. -/
inductive LoadResult (P : Type) where
  | proceed (params : P)
  | exited (code : Nat)
  deriving Repr, DecidableEq

/-- The checkpoint-restore phase (train.py lines 38-44).  `restored` models
`torch.load` + `load_state_dict`: `some p` on success, `none` when any
exception is raised.  On failure the exception is printed and `sys.exit()`
is called with no argument, which raises `SystemExit(None)` and makes the
process exit with status `0`. -/
def loadCheckpointPhase {P : Type} (loadCheckpoint : Bool)
    (checkpointNameSome : Bool) (checkpointPathExists : Bool)
    (restored : Option P) (fresh : P) : LoadResult P :=
  if loadCheckpoint && checkpointNameSome && checkpointPathExists then
    match restored with
    | some p => .proceed p
    | none => .exited 0
  else
    .proceed fresh

/-- The run-level state threaded through the epoch loop
(train.py lines 49-54 and the loop body): the model parameters,
`best_accuracy`, the four history lists, the checkpoint sink (the saved
parameters and the epoch index at which they were saved), and the record of
plot emissions (epoch index and the artifacts handed to
`plot_reconstruction`). -/
structure RunState (P : Type) where
  params : P
  bestAccuracy : ℚ
  trainingLossList : List ℚ
  trainingAccList : List ℚ
  testingLossList : List ℚ
  testingAccList : List ℚ
  checkpoint : Option (P × Nat)
  plotEvents : List (Nat × Option Artifacts)

/-- The body of one epoch (train.py lines 57-144): the training pass, the
testing pass on the parameters the training pass produced, the history
appends, the conditional plot emission, and the checkpoint decision.
`best_accuracy` is compared (`if best_accuracy < epoch_accuracy`, line 141)
but never reassigned anywhere in the source, so it is carried unchanged. -/
def runEpochBody {P G : Type} (net : Net P) (h : Hyper) (numClasses : Nat)
    (graphsFolder : Option G) (trainBatches testBatches : List Batch)
    (st : RunState P) (epochIdx : Nat) : RunState P :=
  let tr := trainEpoch net h numClasses st.params trainBatches
  let te := testEpoch net h numClasses tr.params testBatches
  let plots :=
    if plotTriggered graphsFolder epochIdx then
      st.plotEvents ++ [(epochIdx, te.last)]
    else
      st.plotEvents
  let ckpt :=
    if st.bestAccuracy < te.epochAccuracy then
      some (te.params, epochIdx)
    else
      st.checkpoint
  { params := te.params
    bestAccuracy := st.bestAccuracy
    trainingLossList := st.trainingLossList ++ [tr.avgBatchLoss]
    trainingAccList := st.trainingAccList ++ [tr.epochAccuracy]
    testingLossList := st.testingLossList ++ [te.avgBatchLoss]
    testingAccList := st.testingAccList ++ [te.epochAccuracy]
    checkpoint := ckpt
    plotEvents := plots }

/-- The initial run-level state (train.py lines 49-54): `best_accuracy = 0`,
empty history lists, nothing yet saved or plotted. -/
def initialRunState {P : Type} (p0 : P) : RunState P :=
  ⟨p0, 0, [], [], [], [], none, []⟩

/-- The whole training run after the restore phase
(train.py `for epoch_idx in range(num_epochs)`). -/
def runTraining {P G : Type} (net : Net P) (h : Hyper) (numClasses : Nat)
    (graphsFolder : Option G) (trainBatches testBatches : List Batch)
    (numEpochs : Nat) (p0 : P) : RunState P :=
  (List.range numEpochs).foldl
    (runEpochBody net h numClasses graphsFolder trainBatches testBatches)
    (initialRunState p0)

/-! ### Derived per-batch quantities

These re-express the per-batch scalar contributions as standalone functions
of the current parameters and the batch, so the loop accumulators can be
related to plain sums. -/

/-- The scalar produced by `deepcaps.loss` for one batch at parameters `p`
(the loss expression of train.py lines 81 and 116). -/
def batchLossOf {P : Type} (net : Net P) (h : Hyper) (numClasses : Nat)
    (p : P) (b : Batch) : ℚ :=
  let f := net.forward p b.data b.optic (net.onehot b.labels numClasses)
  net.lossFn (f.outputs ++ f.outputs1) (f.reconstructed ++ f.reconstructed1)
    (mergeData b) (net.onehot (mergeLabels b) numClasses)
    h.lambda_ h.mPlus h.mMinus

/-- The scalar produced by `accuracy_calc(ind, labels_con)` for one batch at
parameters `p` (train.py lines 87 and 119). -/
def batchAccOf {P : Type} (net : Net P) (numClasses : Nat)
    (p : P) (b : Batch) : ℚ :=
  let f := net.forward p b.data b.optic (net.onehot b.labels numClasses)
  net.accCalc (f.indices ++ f.indices1) (mergeLabels b)

/-- The artifacts (`data_con`, `recon`, `ind`, `labels_con`) a testing batch
leaves in scope, as a function of the parameters and the batch alone. -/
def artifactsOf {P : Type} (net : Net P) (h : Hyper) (numClasses : Nat)
    (p : P) (b : Batch) : Artifacts :=
  (testBatchStep net h numClasses ⟨p, 0, 0⟩ b).2

/-- The per-batch losses of a training pass, threading the optimizer update
from batch to batch. -/
def trainLosses {P : Type} (net : Net P) (h : Hyper) (numClasses : Nat)
    (p : P) : List Batch → List ℚ
  | [] => []
  | b :: bs => batchLossOf net h numClasses p b ::
      trainLosses net h numClasses (net.optStep p b) bs

/-- The per-batch accuracies of a training pass, threading the optimizer
update from batch to batch. -/
def trainAccs {P : Type} (net : Net P) (numClasses : Nat)
    (p : P) : List Batch → List ℚ
  | [] => []
  | b :: bs => batchAccOf net numClasses p b ::
      trainAccs net numClasses (net.optStep p b) bs

/-- The F1 value printed at epoch finalization (train.py lines 125-126):
the metric is constructed with `f1NumClasses` classes and applied to the
last testing batch's `ind` and `labels_con`; `none` when the testing loader
was empty. -/
def reportedF1 {P : Type} (net : Net P) (numClasses : Nat)
    (r : PhaseResult P) : Option ℚ :=
  r.last.map (fun a => net.f1 (f1NumClasses numClasses) a.ind a.labelsCon)

/-! ### A concrete instantiation

A small executable `Net` over `Nat` parameters, used to evaluate the
embedding at explicit inputs.  The optimizer step increments the parameter,
and the accuracy depends on the predicted indices (which the forward pass
sets to the current parameter), so successive epochs see the testing
accuracies `1/2` and then `1/3`. -/

def demoNet : Net Nat where
  forward := fun p _ _ _ => ⟨[], [], [p], [], [], [p]⟩
  lossFn := fun _ _ _ _ _ _ _ => 1
  optStep := fun p _ => p + 1
  accCalc := fun ind _ =>
    if ind = [1, 1] then 1/2 else if ind = [2, 2] then 1/3 else 0
  onehot := fun _ _ => []
  f1 := fun _ _ _ => 0

def demoHyper : Hyper := ⟨1/2, 9/10, 1/10⟩

def demoBatch : Batch := ⟨[[0]], [[1]], [0]⟩

/-! ### Supporting lemmas about the phase folds -/

/-- One testing batch leaves the parameters untouched and adds the batch's
loss and accuracy to the accumulators. -/
lemma testBatchStep_fst {P : Type} (net : Net P) (h : Hyper) (nc : Nat)
    (s : BatchAcc P) (b : Batch) :
    (testBatchStep net h nc s b).1 =
      ⟨s.params, s.batchLoss + batchLossOf net h nc s.params b,
       s.batchAccuracy + batchAccOf net nc s.params b⟩ := rfl

/-- One training batch steps the parameters through the optimizer and adds
the batch's loss and accuracy to the accumulators. -/
lemma trainBatchStep_fst {P : Type} (net : Net P) (h : Hyper) (nc : Nat)
    (s : BatchAcc P) (b : Batch) :
    (trainBatchStep net h nc s b).1 =
      ⟨net.optStep s.params b, s.batchLoss + batchLossOf net h nc s.params b,
       s.batchAccuracy + batchAccOf net nc s.params b⟩ := rfl

/-- The accumulator a testing fold produces: the parameters are untouched and
the loss/accuracy accumulators become plain sums over the batches. -/
lemma testFold_fst {P : Type} (net : Net P) (h : Hyper) (nc : Nat) :
    ∀ (bs : List Batch) (s : BatchAcc P) (art : Option Artifacts),
      (bs.foldl (fun sa b =>
          let r := testBatchStep net h nc sa.1 b
          (r.1, some r.2)) (s, art)).1 =
        ⟨s.params,
         s.batchLoss + (bs.map (batchLossOf net h nc s.params)).sum,
         s.batchAccuracy + (bs.map (batchAccOf net nc s.params)).sum⟩ := by
  intro bs
  induction bs with
  | nil => intro s art; simp
  | cons b bs ih =>
    intro s art
    rw [List.foldl_cons]
    show (bs.foldl _ ((testBatchStep net h nc s b).1,
        some (testBatchStep net h nc s b).2)).1 = _
    rw [ih]
    simp [testBatchStep_fst, add_assoc]

/-- The accumulator a training fold produces: the parameters are folded
through the optimizer step and the loss/accuracy accumulators become the
sums of the per-batch contributions at the evolving parameters. -/
lemma trainFold_fst {P : Type} (net : Net P) (h : Hyper) (nc : Nat) :
    ∀ (bs : List Batch) (s : BatchAcc P) (art : Option Artifacts),
      (bs.foldl (fun sa b =>
          let r := trainBatchStep net h nc sa.1 b
          (r.1, some r.2)) (s, art)).1 =
        ⟨bs.foldl net.optStep s.params,
         s.batchLoss + (trainLosses net h nc s.params bs).sum,
         s.batchAccuracy + (trainAccs net nc s.params bs).sum⟩ := by
  intro bs
  induction bs with
  | nil => intro s art; simp [trainLosses, trainAccs]
  | cons b bs ih =>
    intro s art
    rw [List.foldl_cons]
    show (bs.foldl _ ((trainBatchStep net h nc s b).1,
        some (trainBatchStep net h nc s b).2)).1 = _
    rw [ih]
    simp [trainBatchStep_fst, trainLosses, trainAccs, add_assoc]

/-- A testing batch body's artifacts depend only on the parameters and the
batch. -/
lemma testBatchStep_snd {P : Type} (net : Net P) (h : Hyper) (nc : Nat)
    (s : BatchAcc P) (b : Batch) :
    (testBatchStep net h nc s b).2 = artifactsOf net h nc s.params b := rfl

/-- The artifacts left by a testing fold over `bs ++ [b]` are those of the
final batch `b`, computed at the (unchanged) parameters. -/
lemma testFold_snd_append {P : Type} (net : Net P) (h : Hyper) (nc : Nat)
    (p : P) (bs : List Batch) (b : Batch) :
    (runPhase (testBatchStep net h nc) p (bs ++ [b])).2 =
      some (artifactsOf net h nc p b) := by
  unfold runPhase
  rw [List.foldl_append, List.foldl_cons, List.foldl_nil]
  have hfst := testFold_fst net h nc bs ⟨p, 0, 0⟩ none
  rw [hfst]
  rfl

/-- The testing pass does not change the parameters. -/
lemma testEpoch_params {P : Type} (net : Net P) (h : Hyper) (nc : Nat)
    (p : P) (bs : List Batch) :
    (testEpoch net h nc p bs).params = p := by
  show (runPhase (testBatchStep net h nc) p bs).1.params = p
  unfold runPhase
  rw [testFold_fst net h nc bs ⟨p, 0, 0⟩ none]

/-- `epochDenominator` agrees with the batch count on non-empty loaders. -/
lemma epochDenominator_pos (n : Nat) (hn : n ≠ 0) :
    epochDenominator n = (n : ℚ) := by
  unfold epochDenominator finalBatchIdx
  rw [if_neg hn]
  congr 1
  omega

/-- The plot guard holds exactly when a graphs folder is configured and the
epoch index is a multiple of 5. -/
lemma plotTriggered_iff {G : Type} (g : Option G) (e : Nat) :
    plotTriggered g e = true ↔ g ≠ none ∧ e % 5 = 0 := by
  simp [plotTriggered, Option.isSome_iff_ne_none]

/-- Appending one element never returns the original list. -/
lemma append_singleton_ne {α : Type} (l : List α) (x : α) : l ++ [x] ≠ l := by
  intro hEq
  have hLen := congrArg List.length hEq
  simp at hLen

/-! ### The claims -/

/-- C4: for a batch whose primary images, secondary images and labels each
have batch size `B`, the merged image tensor has batch dimension `2B`, its
indices `[0, B)` hold the primary input and `[B, 2B)` the secondary input,
and the merged label tensor is the labels followed by the labels again in
the same order. -/
theorem merged_batch_layout (b : Batch) (B : Nat)
    (hd : b.data.length = B) (ho : b.optic.length = B) :
    (mergeData b).length = 2 * B ∧
    (∀ i, i < B → (mergeData b).getD i [] = b.data.getD i []) ∧
    (∀ i, B ≤ i → i < 2 * B →
      (mergeData b).getD i [] = b.optic.getD (i - B) []) ∧
    (mergeLabels b).length = 2 * b.labels.length ∧
    (∀ i, i < b.labels.length →
      (mergeLabels b).getD i 0 = b.labels.getD i 0) ∧
    (∀ i, b.labels.length ≤ i → i < 2 * b.labels.length →
      (mergeLabels b).getD i 0 = b.labels.getD (i - b.labels.length) 0) := by
  refine ⟨?_, ?_, ?_, ?_, ?_, ?_⟩
  · simp only [mergeData, List.length_append, hd, ho]
    omega
  · intro i hi
    exact List.getD_append _ _ _ _ (by omega)
  · intro i hB hi
    rw [mergeData, List.getD_append_right _ _ _ _ (by omega), hd]
  · simp only [mergeLabels, List.length_append]
    omega
  · intro i hi
    exact List.getD_append _ _ _ _ hi
  · intro i hB hi
    rw [mergeLabels, List.getD_append_right _ _ _ _ hB]

/-- A concrete two-sample batch used to witness C4. -/
def demoBatch2 : Batch := ⟨[[1], [2]], [[3], [4]], [0, 1]⟩

/-- Witness for C4 at a concrete batch of size 2. -/
theorem merged_batch_layout_witness :
    (mergeData demoBatch2).length = 2 * 2 ∧
    (∀ i, i < 2 → (mergeData demoBatch2).getD i [] = demoBatch2.data.getD i []) ∧
    (∀ i, 2 ≤ i → i < 2 * 2 →
      (mergeData demoBatch2).getD i [] = demoBatch2.optic.getD (i - 2) []) ∧
    (mergeLabels demoBatch2).length = 2 * demoBatch2.labels.length ∧
    (∀ i, i < demoBatch2.labels.length →
      (mergeLabels demoBatch2).getD i 0 = demoBatch2.labels.getD i 0) ∧
    (∀ i, demoBatch2.labels.length ≤ i → i < 2 * demoBatch2.labels.length →
      (mergeLabels demoBatch2).getD i 0
        = demoBatch2.labels.getD (i - demoBatch2.labels.length) 0) :=
  merged_batch_layout demoBatch2 2 rfl rfl

/-- C5: on a non-empty loader, the testing-phase average loss is the
accumulated testing loss divided by the batch count and then additionally by
2, while the training-phase average loss is the accumulated training loss
divided by the batch count with no extra factor. -/
theorem epoch_average_loss_normalization {P : Type} (net : Net P) (h : Hyper)
    (nc : Nat) (p : P) (bs : List Batch) (hne : bs ≠ []) :
    (testEpoch net h nc p bs).avgBatchLoss
        = (bs.map (batchLossOf net h nc p)).sum / (bs.length : ℚ) / 2 ∧
    (trainEpoch net h nc p bs).avgBatchLoss
        = (trainLosses net h nc p bs).sum / (bs.length : ℚ) := by
  have hlen : bs.length ≠ 0 := by
    simpa using hne
  constructor
  · show (runPhase (testBatchStep net h nc) p bs).1.batchLoss /
        epochDenominator bs.length / 2 = _
    unfold runPhase
    rw [testFold_fst net h nc bs ⟨p, 0, 0⟩ none, epochDenominator_pos _ hlen]
    simp
  · show (runPhase (trainBatchStep net h nc) p bs).1.batchLoss /
        epochDenominator bs.length = _
    unfold runPhase
    rw [trainFold_fst net h nc bs ⟨p, 0, 0⟩ none, epochDenominator_pos _ hlen]
    simp

/-- Witness for C5 at the concrete net and a one-batch loader. -/
theorem epoch_average_loss_normalization_witness :
    (testEpoch demoNet demoHyper 7 0 [demoBatch]).avgBatchLoss
        = (([demoBatch].map (batchLossOf demoNet demoHyper 7 0)).sum) /
          (([demoBatch] : List Batch).length : ℚ) / 2 ∧
    (trainEpoch demoNet demoHyper 7 0 [demoBatch]).avgBatchLoss
        = (trainLosses demoNet demoHyper 7 0 [demoBatch]).sum /
          (([demoBatch] : List Batch).length : ℚ) :=
  epoch_average_loss_normalization demoNet demoHyper 7 0 [demoBatch] (by simp)

/-- C6: the per-batch testing body accumulates exactly the loss and accuracy
the training body would at the same state, produces the same artifacts, and
leaves the parameters unchanged — as does the whole evaluation pass. -/
theorem testing_matches_training_without_update {P : Type} (net : Net P)
    (h : Hyper) (nc : Nat) (s : BatchAcc P) (b : Batch) (p : P)
    (bs : List Batch) :
    (testBatchStep net h nc s b).1.batchLoss
        = (trainBatchStep net h nc s b).1.batchLoss ∧
    (testBatchStep net h nc s b).1.batchAccuracy
        = (trainBatchStep net h nc s b).1.batchAccuracy ∧
    (testBatchStep net h nc s b).2 = (trainBatchStep net h nc s b).2 ∧
    (testBatchStep net h nc s b).1.params = s.params ∧
    (testEpoch net h nc p bs).params = p :=
  ⟨rfl, rfl, rfl, rfl, testEpoch_params net h nc p bs⟩

/-- C7: the F1 input at epoch finalization is exactly the final testing
batch's concatenated predicted indices and its merged labels, independent of
every earlier batch of the epoch. -/
theorem f1_from_final_batch_only {P : Type} (net : Net P) (h : Hyper)
    (nc : Nat) (p : P) (bs : List Batch) (b : Batch) :
    reportedF1Input (testEpoch net h nc p (bs ++ [b]))
        = some ((artifactsOf net h nc p b).ind,
                (artifactsOf net h nc p b).labelsCon) ∧
    (artifactsOf net h nc p b).ind
        = (net.forward p b.data b.optic (net.onehot b.labels nc)).indices ++
          (net.forward p b.data b.optic (net.onehot b.labels nc)).indices1 ∧
    (artifactsOf net h nc p b).labelsCon = mergeLabels b := by
  refine ⟨?_, rfl, rfl⟩
  show ((runPhase (testBatchStep net h nc) p (bs ++ [b])).2).map _ = _
  rw [testFold_snd_append]
  rfl

/-- C8: rerunning the testing loop on the same data with the parameters the
first run left behind reproduces the same aggregated accuracy and loss, and
the parameters stay at their pre-evaluation value through both runs. -/
theorem evaluation_pass_idempotent {P : Type} (net : Net P) (h : Hyper)
    (nc : Nat) (p : P) (bs : List Batch) :
    (testEpoch net h nc (testEpoch net h nc p bs).params bs).epochAccuracy
        = (testEpoch net h nc p bs).epochAccuracy ∧
    (testEpoch net h nc (testEpoch net h nc p bs).params bs).avgBatchLoss
        = (testEpoch net h nc p bs).avgBatchLoss ∧
    (testEpoch net h nc (testEpoch net h nc p bs).params bs).params = p := by
  rw [testEpoch_params net h nc p bs]
  exact ⟨rfl, rfl, testEpoch_params net h nc p bs⟩

/-- C10: the F1 metric is constructed with the literal class count 7
whatever `num_classes` is, so for any other `num_classes` the reported F1 is
computed against a class count different from the configured one. -/
theorem f1_metric_class_count_hardcoded {P : Type} (net : Net P) (nc : Nat)
    (r : PhaseResult P) (hnc : nc ≠ 7) :
    f1NumClasses nc = 7 ∧ f1NumClasses nc ≠ nc ∧
    reportedF1 net nc r
        = r.last.map (fun a => net.f1 7 a.ind a.labelsCon) :=
  ⟨rfl, Ne.symm hnc, rfl⟩

/-- Witness for C10 at `num_classes = 9`. -/
theorem f1_metric_class_count_hardcoded_witness :
    f1NumClasses 9 = 7 ∧ f1NumClasses 9 ≠ 9 ∧
    reportedF1 demoNet 9 (⟨0, 0, 0, none⟩ : PhaseResult Nat)
        = ((⟨0, 0, 0, none⟩ : PhaseResult Nat).last).map
            (fun a => demoNet.f1 7 a.ind a.labelsCon) :=
  f1_metric_class_count_hardcoded demoNet 9 ⟨0, 0, 0, none⟩ (by decide)

/-- C2 counterexample: with zero batches the finalization denominator
`batch_idx + 1` is 1, not 0 — `batch_idx` keeps its initialization to 0 when
the loop body never runs, so no division by zero happens. -/
theorem empty_loader_denominator_is_one :
    epochDenominator (List.length ([] : List Batch)) = 1 ∧
    epochDenominator (List.length ([] : List Batch)) ≠ 0 := by
  constructor <;> simp [epochDenominator, finalBatchIdx]

/-- C2 amended: if a loader yields zero batches, epoch finalization divides
the zeroed accumulators by `batch_idx + 1 = 1` and reports average accuracy
and loss 0 for that phase; it does not divide by zero. -/
theorem empty_loader_divides_by_one {P : Type} (net : Net P) (h : Hyper)
    (nc : Nat) (p : P) :
    epochDenominator (List.length ([] : List Batch)) = 1 ∧
    (trainEpoch net h nc p []).epochAccuracy = 0 ∧
    (trainEpoch net h nc p []).avgBatchLoss = 0 ∧
    (testEpoch net h nc p []).epochAccuracy = 0 ∧
    (testEpoch net h nc p []).avgBatchLoss = 0 := by
  refine ⟨by simp [epochDenominator, finalBatchIdx], ?_, ?_, ?_, ?_⟩ <;>
    simp [trainEpoch, testEpoch, runPhase, epochDenominator, finalBatchIdx]

/-- C3 counterexample: when `load_checkpoint` is set, a checkpoint name is
given, the file exists and the restore raises, the process exits via
`sys.exit()` — whose exit status is 0, so there is no non-zero exit code. -/
theorem restore_failure_exit_code_is_zero :
    loadCheckpointPhase true true true (none : Option Nat) 0
        = LoadResult.exited 0 ∧
    ¬ ∃ c : Nat, c ≠ 0 ∧
        loadCheckpointPhase true true true (none : Option Nat) 0
          = LoadResult.exited c := by
  constructor
  · rfl
  · rintro ⟨c, hc, hEq⟩
    injection hEq with h0
    exact hc h0.symm

/-- C3 amended: on restore failure under the load conditions the process
terminates immediately — it never proceeds to training — but the exit code
is 0 (`sys.exit()` with no argument), not a non-zero code. -/
theorem restore_failure_exits_before_training (P : Type) (fresh : P) :
    loadCheckpointPhase true true true (none : Option P) fresh
        = LoadResult.exited 0 ∧
    ∀ q : P, loadCheckpointPhase true true true (none : Option P) fresh
        ≠ LoadResult.proceed q := by
  constructor
  · rfl
  · intro q hEq
    injection hEq

/-- C9: during an epoch body, a plot is emitted iff a graphs folder is
configured and the epoch index is a multiple of 5 (epoch 0 included), and
the emitted reconstruction payload is built from the final batch of that
epoch's testing pass; at other epochs or with no sink the plot record is
unchanged. -/
theorem plot_emission_schedule {P G : Type} (net : Net P) (h : Hyper)
    (nc : Nat) (g : Option G) (trainB bs : List Batch) (b : Batch)
    (st : RunState P) (e : Nat) :
    ((runEpochBody net h nc g trainB (bs ++ [b]) st e).plotEvents
        ≠ st.plotEvents ↔ g ≠ none ∧ e % 5 = 0) ∧
    (g ≠ none → e % 5 = 0 →
      (runEpochBody net h nc g trainB (bs ++ [b]) st e).plotEvents
        = st.plotEvents ++ [(e, some (artifactsOf net h nc
            (trainEpoch net h nc st.params trainB).params b))]) ∧
    ((g = none ∨ e % 5 ≠ 0) →
      (runEpochBody net h nc g trainB (bs ++ [b]) st e).plotEvents
        = st.plotEvents) := by
  have hlast : (testEpoch net h nc
      (trainEpoch net h nc st.params trainB).params (bs ++ [b])).last
      = some (artifactsOf net h nc
          (trainEpoch net h nc st.params trainB).params b) := by
    show (runPhase (testBatchStep net h nc)
        (trainEpoch net h nc st.params trainB).params (bs ++ [b])).2 = _
    exact testFold_snd_append net h nc _ bs b
  have hbody : (runEpochBody net h nc g trainB (bs ++ [b]) st e).plotEvents
      = if plotTriggered g e then
          st.plotEvents ++ [(e, (testEpoch net h nc
            (trainEpoch net h nc st.params trainB).params (bs ++ [b])).last)]
        else st.plotEvents := rfl
  by_cases hp : plotTriggered g e = true
  · have hval : (runEpochBody net h nc g trainB (bs ++ [b]) st e).plotEvents
        = st.plotEvents ++ [(e, some (artifactsOf net h nc
            (trainEpoch net h nc st.params trainB).params b))] := by
      rw [hbody, if_pos hp, hlast]
    have hcond := (plotTriggered_iff g e).mp hp
    refine ⟨⟨fun _ => hcond, fun _ => ?_⟩, fun _ _ => hval, fun hno => ?_⟩
    · rw [hval]
      exact append_singleton_ne _ _
    · rcases hno with hg | he
      · exact absurd hcond.1 (by simp [hg])
      · exact absurd hcond.2 he
  · have hval : (runEpochBody net h nc g trainB (bs ++ [b]) st e).plotEvents
        = st.plotEvents := by
      rw [hbody, if_neg hp]
    refine ⟨⟨fun hne => absurd hval hne, fun hcond => ?_⟩,
        fun hg he => ?_, fun _ => hval⟩
    · exact absurd ((plotTriggered_iff g e).mpr hcond) hp
    · exact absurd ((plotTriggered_iff g e).mpr ⟨hg, he⟩) hp

/-- Witness for C9: at epoch 0 with a configured sink, the plot record gains
exactly the final testing batch's artifacts. -/
theorem plot_emission_schedule_witness :
    (runEpochBody demoNet demoHyper 7 (some 0) [demoBatch]
        ([] ++ [demoBatch]) (initialRunState 0) 0).plotEvents
      = (initialRunState (0 : Nat)).plotEvents ++
        [(0, some (artifactsOf demoNet demoHyper 7
            (trainEpoch demoNet demoHyper 7
              (initialRunState (0 : Nat)).params [demoBatch]).params
            demoBatch))] :=
  (plot_emission_schedule demoNet demoHyper 7 (some 0) [demoBatch] []
      demoBatch (initialRunState 0) 0).2.1 (by simp) rfl

/-- C1 (code behavior at a failing input): `best_accuracy` is compared but
never reassigned, so every epoch with positive testing accuracy saves.  With
testing accuracies `1/2` then `1/3` across two epochs, the run ends with the
checkpoint holding the epoch-1 parameters although epoch 0 had the higher
accuracy, and `best_accuracy` is still 0. -/
theorem best_accuracy_never_updated_checkpoint_clobbered :
    (runTraining demoNet demoHyper 7 (none : Option Nat) [demoBatch]
        [demoBatch] 2 0).testingAccList = [1/2, 1/3] ∧
    ((1 : ℚ)/3 < 1/2) ∧
    (runTraining demoNet demoHyper 7 (none : Option Nat) [demoBatch]
        [demoBatch] 2 0).checkpoint = some (2, 1) ∧
    (runTraining demoNet demoHyper 7 (none : Option Nat) [demoBatch]
        [demoBatch] 2 0).bestAccuracy = 0 := by
  norm_num [runTraining, runEpochBody, initialRunState, trainEpoch, testEpoch,
    runPhase, trainBatchStep, testBatchStep, demoNet, demoHyper, demoBatch,
    epochDenominator, finalBatchIdx, plotTriggered, mergeData, mergeLabels,
    List.range_succ]

end MerDeepCaps
